import Mathlib

/-!
A verification development for the `vast_api_client` Python library
(`vast_api_client/models.py`, `vast_api_client/abstract_client.py`,
`vast_api_client/vast_api_client.py`, `vast_api_client/utils.py`).

The library's pure logic is embedded shallowly: pydantic request models
become `Except`-returning constructor functions, the HTTP dispatcher
becomes a function from a scripted list of HTTP responses to a result
together with counts of issued requests and token renewals, and path
handling reproduces `pathlib.PurePosixPath` parsing composed with the
regex check of `models.validate_path`.
-/

namespace VastApiClient

/-! ## Path validation (`models.validate_path`)

`validate_path(path: Path)` checks `path.as_posix()` against the regex
`^/([A-Za-z0-9_-]+/)*[A-Za-z0-9_-]+$` and raises `ValueError("invalid path")`
on mismatch.  Because every model declares its field as `path: Path`,
pydantic first coerces the caller's string through `pathlib.Path`, whose
parsing collapses repeated slashes, drops `.` segments and trailing
slashes (with the POSIX special case that a path beginning with exactly
two slashes keeps both).  We embed the character class, the regex as a
direct decision procedure on the split segments, and the `PurePosixPath`
parse/`as_posix` round trip. -/

/-- The character class `[A-Za-z0-9_-]` of the path regex. -/
def isPathChar (c : Char) : Bool :=
  c.isAlpha || c.isDigit || c == '_' || c == '-'

/-- Split a character list on `/` (like `str.split('/')`): always returns a
nonempty list of separator-free chunks, with empty chunks marking leading,
trailing or repeated slashes. -/
def splitSegs : List Char → List (List Char)
  | [] => [[]]
  | c :: rest =>
    let ss := splitSegs rest
    if c = '/' then [] :: ss
    else (c :: ss.headD []) :: ss.tail

/-- Join chunks back with `/` separators (inverse of `splitSegs`). -/
def joinSegs : List (List Char) → List Char
  | [] => []
  | [s] => s
  | s :: ss => s ++ '/' :: joinSegs ss

/-- Decision procedure for `^/([A-Za-z0-9_-]+/)*[A-Za-z0-9_-]+$` on a raw
character list: a leading `/` followed by one or more nonempty all-`isPathChar`
segments (empty chunks from `splitSegs` reject repeated or trailing slashes). -/
def matchesPathSegs (cs : List Char) : Bool :=
  match cs with
  | [] => false
  | c :: t => c == '/' && (splitSegs t).all fun seg => !seg.isEmpty && seg.all isPathChar

/-- `re.match(r'^/([A-Za-z0-9_-]+/)*[A-Za-z0-9_-]+$', s)` succeeds. -/
def matchesPathPattern (s : String) : Bool :=
  matchesPathSegs s.data

/-- The root prefix kept by `pathlib.PurePosixPath`: `//` when the path begins
with exactly two slashes (POSIX special case), `/` for any other absolute
path, empty otherwise. -/
def rootOf (cs : List Char) : List Char :=
  if cs.head? = some '/' then
    if cs.tail.head? = some '/' then
      if cs.tail.tail.head? = some '/' then ['/'] else ['/', '/']
    else ['/']
  else []

/-- The chunks `pathlib` keeps: nonempty and not `.` (so `..` survives). -/
def keepSeg (p : List Char) : Bool :=
  !p.isEmpty && !(p == ['.'])

/-- `PurePosixPath(s).as_posix()` on the character list: keep the root, drop
empty and `.` chunks (collapsing repeated and trailing slashes), keep `..`;
an empty relative result renders as `.`. -/
def posixNormalizeList (cs : List Char) : List Char :=
  if ((splitSegs cs).filter keepSeg).isEmpty then
    (if (rootOf cs).isEmpty then ['.'] else rootOf cs)
  else rootOf cs ++ joinSegs ((splitSegs cs).filter keepSeg)

/-- `PurePosixPath(s).as_posix()` — the string pydantic stores for a
`path: Path` field built from the caller's string `s`. -/
def posixNormalize (s : String) : String :=
  String.mk (posixNormalizeList s.data)

/-- `models.validate_path`: its argument is the already-coerced `Path`
(represented by its `as_posix()` string); it returns the path when the regex
matches and raises `ValueError("invalid path")` otherwise. -/
def validate_path (p : String) : Except String String :=
  if matchesPathPattern p then Except.ok p else Except.error "invalid path"

/-- End-to-end validation of a caller-supplied path string for a `path: Path`
model field: pydantic's `Path` coercion (pathlib normalization) followed by
the `validate_path` field validator. -/
def pathFieldValidation (s : String) : Except String String :=
  validate_path (posixNormalize s)

/-- The path string `s` is accepted by a path-carrying model field. -/
def pathAccepted (s : String) : Bool :=
  match pathFieldValidation s with
  | Except.ok _ => true
  | Except.error _ => false

/-! ## Python string helpers -/

/-- The whitespace stripped by Python's `str.strip()` (ASCII subset). -/
def isPySpace (c : Char) : Bool :=
  c == ' ' || c == '\t' || c == '\n' || c == '\r' || c == '\x0b' || c == '\x0c'

/-- Python `str.strip()`: drop leading and trailing whitespace (what
pydantic's `str_strip_whitespace=True` applies to `str` fields). -/
def pyStrip (s : String) : String :=
  String.mk (((s.data.dropWhile isPySpace).reverse.dropWhile isPySpace).reverse)

/-- Python `s.endswith(c)` for a one-character suffix. -/
def endsWithChar (s : String) (c : Char) : Bool :=
  s.data.getLast? == some c

/-- Python `s[:-1]`: drop the last character. -/
def dropLastChar (s : String) : String :=
  String.mk s.data.dropLast

/-! ## JSON values -/

/-- Decoded JSON, used for serialized request payloads and response bodies. -/
inductive JVal where
  | str (s : String)
  | num (n : Int)
  | bool (b : Bool)
  | null
  | arr (xs : List JVal)
  | obj (fields : List (String × JVal))

/-! ## Enumerations (`models.py`) -/

/-- `ProtocolEnum(str, Enum)`: members SMB, NFS. -/
inductive ProtocolEnum where
  | SMB
  | NFS
deriving Repr, BEq, DecidableEq

/-- The string value of a `ProtocolEnum` member. -/
def ProtocolEnum.value : ProtocolEnum → String
  | .SMB => "SMB"
  | .NFS => "NFS"

/-- `PolicyEnum(IntEnum)`: SMBDefault = 5, SMBMigration = 6. -/
inductive PolicyEnum where
  | SMBDefault
  | SMBMigration
deriving Repr, BEq, DecidableEq

/-- The integer value of a `PolicyEnum` member. -/
def PolicyEnum.value : PolicyEnum → Int
  | .SMBDefault => 5
  | .SMBMigration => 6

/-- `CloneTypeEnum(str, Enum)`: members LOCAL, REMOTE. -/
inductive CloneTypeEnum where
  | LOCAL
  | REMOTE
deriving Repr, BEq, DecidableEq

/-! ## Quota models (`models.QuotaCreate`, `models.QuotaUpdate`) -/

/-- A validated `QuotaCreate` instance (path stored in `as_posix` form). -/
structure QuotaCreate where
  name : String
  path : String
  soft_limit : Int
  hard_limit : Int
  create_dir : Bool
deriving Repr, BEq, DecidableEq

/-- Constructing `QuotaCreate(name=…, path=…, soft_limit=…, hard_limit=…,
create_dir=…)`: pydantic validates fields in declaration order — `name`
(whitespace-stripped per `str_strip_whitespace=True`), `path` (coerced via
`pathlib.Path`, then `validate_path`), `soft_limit` (`Optional[PositiveInt]`),
`hard_limit` (`PositiveInt`) — then runs the `soft_limit_below_hard_limit`
model validator, which defaults a missing `soft_limit` to `hard_limit` and
rejects `hard_limit < soft_limit`. -/
def mkQuotaCreate (name : String) (path : String) (soft_limit : Option Int)
    (hard_limit : Int) (create_dir : Bool) : Except String QuotaCreate := do
  let name := pyStrip name
  let p ← pathFieldValidation path
  let soft? ← match soft_limit with
    | none => pure none
    | some s =>
      if s ≤ 0 then throw "soft_limit must be a positive integer"
      else pure (some s)
  if hard_limit ≤ 0 then throw "hard_limit must be a positive integer"
  let soft := soft?.getD hard_limit
  if hard_limit < soft then throw "\x27soft_limit\x27 cannot be larger than \x27hard_limit\x27"
  pure { name := name, path := p, soft_limit := soft,
         hard_limit := hard_limit, create_dir := create_dir }

/-- `QuotaCreate.model_dump()` (declaration order; `path` serialized by
`serialize_path` to its `as_posix` string). -/
def QuotaCreate.model_dump (q : QuotaCreate) : List (String × JVal) :=
  [("name", JVal.str q.name), ("path", JVal.str q.path),
   ("soft_limit", JVal.num q.soft_limit), ("hard_limit", JVal.num q.hard_limit),
   ("create_dir", JVal.bool q.create_dir)]

/-- A validated `QuotaUpdate` instance. -/
structure QuotaUpdate where
  soft_limit : Int
  hard_limit : Int
deriving Repr, BEq, DecidableEq

/-- Constructing `QuotaUpdate(soft_limit=…, hard_limit=…)`: the same positive
limits and `soft_limit_below_hard_limit` model validator as `QuotaCreate`. -/
def mkQuotaUpdate (soft_limit : Option Int) (hard_limit : Int) :
    Except String QuotaUpdate := do
  let soft? ← match soft_limit with
    | none => pure none
    | some s =>
      if s ≤ 0 then throw "soft_limit must be a positive integer"
      else pure (some s)
  if hard_limit ≤ 0 then throw "hard_limit must be a positive integer"
  let soft := soft?.getD hard_limit
  if hard_limit < soft then throw "\x27soft_limit\x27 cannot be larger than \x27hard_limit\x27"
  pure { soft_limit := soft, hard_limit := hard_limit }

/-! ## View model (`models.ViewCreate`) -/

/-- A validated `ViewCreate` instance. -/
structure ViewCreate where
  share : Option String
  path : String
  policy_id : Option PolicyEnum
  protocols : List ProtocolEnum
  create_dir : Bool
deriving Repr, BEq, DecidableEq

/-- Constructing `ViewCreate(share=…, path=…, policy_id=…, protocols=…,
create_dir=…)`.  Field validators run in declaration order on *supplied*
fields (pydantic does not validate defaults): `is_valid_share_name` rejects a
supplied share not ending in `$` (a `None` share passes its guard),
`is_valid_unix_path` validates the coerced path, a supplied `protocols` set
must be nonempty, and the `share_if_smb` model validator then rejects
`SMB ∈ protocols` with no share.  `none` arguments stand for omitted fields
taking their declared defaults (`share=None`, `policy_id=None`,
`protocols={}`), whose validators are skipped; the Python `Set` is carried as
the list of its elements. -/
def mkViewCreate (share : Option String) (path : String)
    (policy_id : Option PolicyEnum) (protocols : Option (List ProtocolEnum))
    (create_dir : Bool) : Except String ViewCreate := do
  let share := share.map pyStrip
  match share with
  | some s =>
    if endsWithChar s '$' then pure ()
    else throw "share_name must end with \x27$\x27"
  | none => pure ()
  let p ← pathFieldValidation path
  let protos := protocols.getD []
  match protocols with
  | some l =>
    if l.isEmpty then throw "protocols must not be empty" else pure ()
  | none => pure ()
  if protos.contains ProtocolEnum.SMB && share.isNone then
    throw "SMB views require a share name"
  pure { share := share, path := p, policy_id := policy_id,
         protocols := protos, create_dir := create_dir }

/-- `ViewCreate.model_dump()`: `path` as posix string, `policy_id` through
`serialize_policy_id` (its integer value), `protocols` through
`serialize_protocols` (list of string values).  A stored `None` policy would
make the Python serializer raise; it is rendered as `null` here and never
reached by the theorems below. -/
def ViewCreate.model_dump (v : ViewCreate) : List (String × JVal) :=
  [("share", match v.share with | some s => JVal.str s | none => JVal.null),
   ("path", JVal.str v.path),
   ("policy_id", match v.policy_id with
     | some pe => JVal.num pe.value
     | none => JVal.null),
   ("protocols", JVal.arr (v.protocols.map fun pr => JVal.str pr.value)),
   ("create_dir", JVal.bool v.create_dir)]

/-! ## Strict-schema configuration of the request models -/

/-- The pydantic models declared in `models.py`. -/
inductive ModelKind where
  | QuotaCreate
  | ViewCreate
  | ProtectionPolicyFrame
  | ProtectionPolicyCreate
  | ProtectedPathCreate
  | PathBody
  | FolderCreateOrUpdate
  | QuotaUpdate
deriving Repr, BEq, DecidableEq

/-- The declared field names of each model, in declaration order. -/
def modelDeclaredFields : ModelKind → List String
  | .QuotaCreate => ["name", "path", "soft_limit", "hard_limit", "create_dir"]
  | .ViewCreate => ["share", "path", "policy_id", "protocols", "create_dir"]
  | .ProtectionPolicyFrame => ["every", "start_at", "keep_local", "keep_remote"]
  | .ProtectionPolicyCreate =>
      ["name", "frames", "prefix", "clone_type", "indestructible"]
  | .ProtectedPathCreate =>
      ["name", "source_dir", "enabled", "protection_policy_id", "tenant_id"]
  | .PathBody => ["path"]
  | .FolderCreateOrUpdate => ["path", "owner_is_group", "user", "group"]
  | .QuotaUpdate => ["soft_limit", "hard_limit"]

/-- Each model's `model_config` extra-field policy: every model passes
`ConfigDict(extra='forbid')` except `PathBody`, whose config is
`ConfigDict(extra='allow')`. -/
def modelExtraForbid : ModelKind → Bool
  | .PathBody => false
  | _ => true

/-- pydantic's handling of input keys outside the declared schema: with
`extra='forbid'` an unknown key is a validation error; with `extra='allow'`
unknown keys are accepted (and stored). -/
def extraFieldCheck (m : ModelKind) (inputKeys : List String) :
    Except String Unit :=
  if modelExtraForbid m then
    match inputKeys.filter (fun k => !(modelDeclaredFields m).contains k) with
    | [] => Except.ok ()
    | k :: _ => Except.error ("Extra inputs are not permitted: " ++ k)
  else Except.ok ()

/-! ## Module import resolution (C1) -/

/-- The module-level attributes of `vast_api_client.models`: the names bound
by its own `import`/`from … import` statements followed by its definitions,
in source order.  No `ShareCreate` is defined anywhere in the module. -/
def modelsModuleNames : List String :=
  ["Path", "Set", "Optional", "Enum", "IntEnum", "re",
   "BaseModel", "ConfigDict", "Field", "PositiveInt", "field_validator",
   "model_validator", "field_serializer", "InstanceOf",
   "validate_path", "ProtocolEnum", "PolicyEnum", "CloneTypeEnum",
   "QuotaCreate", "ViewCreate", "ProtectionPolicyFrame",
   "ProtectionPolicyCreate", "ProtectedPathCreate", "PathBody",
   "FolderCreateOrUpdate", "QuotaUpdate"]

/-- The names `vast_api_client.vast_api_client` imports from
`vast_api_client.models` (lines 3–4). -/
def clientImportsFromModels : List String :=
  ["PathBody", "ViewCreate", "ShareCreate", "QuotaCreate",
   "FolderCreateOrUpdate", "QuotaUpdate", "ProtectedPathCreate",
   "ProtocolEnum"]

/-- Python's `from models import n₁, …, nₖ` succeeds iff every imported name
is an attribute of the models module; otherwise loading
`vast_api_client.vast_api_client` raises `ImportError` before the
`VASTClient` class (and with it `add_view`) even exists. -/
def clientModuleImportOk : Bool :=
  clientImportsFromModels.all fun n => modelsModuleNames.contains n

/-! ## HTTP dispatcher (`abstract_client.AbstractClient`)

The network is replaced by a script: the list of `HttpResponse`s successive
requests would receive, in order.  `renew_token` (delegated to
`VASTClient.renew_token`, which exchanges the refresh token and overwrites
both stored tokens) is assumed to succeed and is modeled as installing fresh
opaque tokens; the dispatcher functions additionally report how many
renewals and how many HTTP requests they performed. -/

/-- The access/refresh token pair held by the client
(`AbstractClient.token` / `AbstractClient.refresh_token`). -/
structure ClientState where
  token : Option String
  refresh_token : Option String
deriving Repr, BEq, DecidableEq

/-- One scripted HTTP response: its status code and decoded JSON body. -/
structure HttpResponse where
  status : Nat
  body : JVal

/-- `requests.Response.raise_for_status` raises `HTTPError` exactly for
status codes in 400–599. -/
def isHttpErrorStatus (status : Nat) : Bool :=
  400 ≤ status && status < 600

/-- How a dispatched call can fail. -/
inductive DispatchError where
  | http (status : Nat)
  | invalidMethod
  | noResponse
deriving Repr, BEq, DecidableEq

/-- Result of a dispatcher call, with renewal/request counts. -/
structure DispatchOutcome where
  result : Except DispatchError JVal
  renewals : Nat
  requestsSent : Nat

/-- `renew_token` on success: both stored tokens are overwritten with the
fresh pair from `POST token/refresh/`. -/
def renewToken (_st : ClientState) : ClientState :=
  { token := some "renewed-access", refresh_token := some "renewed-refresh" }

/-- `AbstractClient._send_get_request(endpoint, params, retries=2)`.
Faithful to the source, including its quirk: on a 403 with a refresh token
and retries left, it renews and re-issues the GET, but the recursive call's
value is *discarded* (no `return` on line 39), so when the retry succeeds
the function falls through to `return r.json()` of the original 403
response; an exception raised by the recursive call propagates. -/
def sendGetRequest (st : ClientState) (script : List HttpResponse)
    (retries : Nat) : DispatchOutcome :=
  let lazyRenew := st.token.isNone && st.refresh_token.isSome
  let st1 := if lazyRenew then renewToken st else st
  let preRenew : Nat := if lazyRenew then 1 else 0
  match script with
  | [] => { result := Except.error DispatchError.noResponse,
            renewals := preRenew, requestsSent := 0 }
  | r :: rest =>
    if !(isHttpErrorStatus r.status) then
      { result := Except.ok r.body, renewals := preRenew, requestsSent := 1 }
    else if st1.refresh_token.isSome && r.status == 403 then
      match retries with
      | 0 => { result := Except.error (DispatchError.http r.status),
               renewals := preRenew, requestsSent := 1 }
      | Nat.succ k =>
        let inner := sendGetRequest (renewToken st1) rest k
        { result := match inner.result with
            | Except.error e => Except.error e
            | Except.ok _ => Except.ok r.body,
          renewals := preRenew + 1 + inner.renewals,
          requestsSent := 1 + inner.requestsSent }
    else
      { result := Except.error (DispatchError.http r.status),
        renewals := preRenew, requestsSent := 1 }

/-- `AbstractClient._send_body(http_method, endpoint, payload, …)`: lazy
renewal if unauthenticated (unless `skip_auth`), a `ValueError` for a method
outside POST/PUT/PATCH/DELETE, then a single request whose non-2xx statuses
are surfaced by `raise_for_status` — never retried. -/
def sendBody (st : ClientState) (http_method : String) (skip_auth : Bool)
    (script : List HttpResponse) : DispatchOutcome :=
  let lazyRenew := !skip_auth && st.token.isNone && st.refresh_token.isSome
  let preRenew : Nat := if lazyRenew then 1 else 0
  if !(["POST", "PUT", "PATCH", "DELETE"].contains http_method) then
    { result := Except.error DispatchError.invalidMethod,
      renewals := preRenew, requestsSent := 0 }
  else
    match script with
    | [] => { result := Except.error DispatchError.noResponse,
              renewals := preRenew, requestsSent := 0 }
    | r :: _ =>
      if isHttpErrorStatus r.status then
        { result := Except.error (DispatchError.http r.status),
          renewals := preRenew, requestsSent := 1 }
      else
        { result := Except.ok r.body, renewals := preRenew, requestsSent := 1 }

/-- `AbstractClient._send_delete_request(endpoint)` with no body: lazy
renewal if unauthenticated, one DELETE whose non-2xx statuses are surfaced
by `raise_for_status` (never retried); on success a synthetic
`{'status': code}` is returned. -/
def sendDeleteNoBody (st : ClientState) (script : List HttpResponse) :
    DispatchOutcome :=
  let lazyRenew := st.token.isNone && st.refresh_token.isSome
  let preRenew : Nat := if lazyRenew then 1 else 0
  match script with
  | [] => { result := Except.error DispatchError.noResponse,
            renewals := preRenew, requestsSent := 0 }
  | r :: _ =>
    if isHttpErrorStatus r.status then
      { result := Except.error (DispatchError.http r.status),
        renewals := preRenew, requestsSent := 1 }
    else
      { result := Except.ok (JVal.obj [("status", JVal.num (Int.ofNat r.status))]),
        renewals := preRenew, requestsSent := 1 }

/-- `AbstractClient._send_delete_request(endpoint, body)`: a non-`None` body
delegates to `_send_body('DELETE', …)`. -/
def sendDeleteRequest (st : ClientState) (body : Option JVal)
    (script : List HttpResponse) : DispatchOutcome :=
  match body with
  | some _ => sendBody st "DELETE" false script
  | none => sendDeleteNoBody st script

/-! ## Client operations (`vast_api_client.VASTClient`) -/

/-- An HTTP request issued by a client operation, as endpoint plus query
parameters (GET) or endpoint plus serialized JSON body (POST). -/
inductive HttpReq where
  | get (endpoint : String) (params : List (String × String))
  | post (endpoint : String) (body : List (String × JVal))

/-- The GET requests within a request trace. -/
def countGets (reqs : List HttpReq) : Nat :=
  (reqs.filter fun r => match r with
    | HttpReq.get _ _ => true
    | HttpReq.post _ _ => false).length

/-- Python `str(x)` for an optional integer: `str(None)` is `"None"`. -/
def pyStrOptInt : Option Int → String
  | none => "None"
  | some n => toString n

/-- `VASTClient.add_quota(name, path, hard_limit, soft_limit=None,
dry_run=False)`: strips one trailing `$` from the name, builds a
`QuotaCreate` (validating it), and — unless `dry_run` — issues exactly one
`POST quotas/` with the dumped model.  No GET precedes the POST and no
`ResourceExistsError` pre-check exists in this method. -/
def add_quota (name : String) (path : String) (hard_limit : Int)
    (soft_limit : Option Int) (dry_run : Bool) :
    Except String (List HttpReq) := do
  let name := if endsWithChar name '$' then dropLastChar name else name
  let qc ← mkQuotaCreate name path soft_limit hard_limit false
  if dry_run then pure []
  else pure [HttpReq.post "quotas/" qc.model_dump]

/-- The guard of `get_protection_policies`'s first branch is `id is not
None`, where `id` is the Python *builtin function* (the `policy_id`
parameter is never consulted); a builtin is never `None`, so the guard is
constantly true. -/
def idBuiltinIsNotNone : Bool := true

/-- `VASTClient.get_protection_policies(name=None, policy_id=None,
source_dir=None)`, returning the single GET it issues. -/
def get_protection_policies (name : Option String) (policy_id : Option Int)
    (source_dir : Option String) : HttpReq :=
  if idBuiltinIsNotNone then
    HttpReq.get ("protectionpolicies/" ++ pyStrOptInt policy_id ++ "/") []
  else if name.isSome then
    HttpReq.get "protectionpolicies/" [("name", name.getD "")]
  else if source_dir.isSome then
    HttpReq.get "protectionpolicies/" [("source_dir", source_dir.getD "")]
  else
    HttpReq.get "protectionpolicies/" []

theorem splitSegs_cons (c : Char) (rest : List Char) :
    splitSegs (c :: rest) =
      if c = '/' then [] :: splitSegs rest
      else (c :: (splitSegs rest).headD []) :: (splitSegs rest).tail := rfl

theorem splitSegs_ne_nil (cs : List Char) : splitSegs cs ≠ [] := by
  cases cs with
  | nil => simp [splitSegs]
  | cons c rest =>
    rw [splitSegs_cons]
    split <;> simp

theorem joinSegs_singleton (s : List Char) : joinSegs [s] = s := rfl

theorem joinSegs_cons_cons (s t : List Char) (ss : List (List Char)) :
    joinSegs (s :: t :: ss) = s ++ '/' :: joinSegs (t :: ss) := by
  rfl

theorem joinSegs_splitSegs (cs : List Char) : joinSegs (splitSegs cs) = cs := by
  induction cs with
  | nil => rfl
  | cons c rest ih =>
    obtain ⟨s, ss, hss⟩ : ∃ s ss, splitSegs rest = s :: ss := by
      cases h : splitSegs rest with
      | nil => exact absurd h (splitSegs_ne_nil rest)
      | cons s ss => exact ⟨s, ss, rfl⟩
    rw [splitSegs_cons, hss]
    by_cases hc : c = '/'
    · rw [if_pos hc, joinSegs_cons_cons, ← hss, ih, hc]
      rfl
    · rw [if_neg hc]
      simp only [List.headD_cons, List.tail_cons]
      rw [hss] at ih
      cases ss with
      | nil =>
        rw [joinSegs_singleton]
        rw [joinSegs_singleton] at ih
        rw [ih]
      | cons t ss' =>
        rw [joinSegs_cons_cons]
        rw [joinSegs_cons_cons] at ih
        rw [List.cons_append, ih]

/-- A string already matching the path regex is left unchanged by `pathlib`
normalization: on such strings the end-to-end field validation agrees with
the bare regex. -/
theorem posixNormalize_eq_self_of_matches (s : String)
    (h : matchesPathPattern s = true) : posixNormalize s = s := by
  obtain ⟨cs⟩ := s
  rw [matchesPathPattern] at h
  cases cs with
  | nil => exact absurd h (by decide)
  | cons c t =>
    simp only [matchesPathSegs, Bool.and_eq_true, beq_iff_eq, List.all_eq_true] at h
    obtain ⟨hc, hall⟩ := h
    subst hc
    cases t with
    | nil =>
      exfalso
      have hmem : ([] : List Char) ∈ splitSegs ([] : List Char) := by
        simp [splitSegs]
      have := hall [] hmem
      simp at this
    | cons d t' =>
      have hd : d ≠ '/' := by
        intro hdeq
        subst hdeq
        have hmem : ([] : List Char) ∈ splitSegs ('/' :: t') := by
          rw [splitSegs_cons, if_pos rfl]
          exact List.mem_cons_self _ _
        have := hall [] hmem
        simp at this
      have hsplit1 : splitSegs ('/' :: d :: t') = [] :: splitSegs (d :: t') := by
        rw [splitSegs_cons, if_pos rfl]
      have hfilter : (splitSegs ('/' :: d :: t')).filter keepSeg = splitSegs (d :: t') := by
        rw [hsplit1, List.filter_cons]
        simp only [keepSeg, List.isEmpty_nil, Bool.not_true, Bool.false_and, if_false]
        apply List.filter_eq_self.mpr
        intro seg hmem
        obtain ⟨hne, hchars⟩ := hall seg hmem
        simp only [keepSeg, Bool.and_eq_true]
        refine ⟨hne, ?_⟩
        rw [Bool.not_eq_true', beq_eq_false_iff_ne]
        intro heq
        have := hchars '.' (by rw [heq]; exact List.mem_singleton_self _)
        exact absurd this (by decide)
      have hroot : rootOf ('/' :: d :: t') = ['/'] := by
        simp [rootOf, hd]
      have hsne : (splitSegs (d :: t')).isEmpty = false := by
        cases hsp : splitSegs (d :: t') with
        | nil => exact absurd hsp (splitSegs_ne_nil (d :: t'))
        | cons a as => rfl
      show String.mk (posixNormalizeList ('/' :: d :: t')) = String.mk ('/' :: d :: t')
      congr 1
      rw [posixNormalizeList, hfilter, hroot, hsne]
      simp only [Bool.false_eq_true, if_false]
      rw [joinSegs_splitSegs]
      rfl

/-- A valid path field: when the normalized string matches the regex, the
end-to-end field validation returns it. -/
theorem pathFieldValidation_ok (path : String)
    (hp : matchesPathPattern (posixNormalize path) = true) :
    pathFieldValidation path = Except.ok (posixNormalize path) := by
  simp [pathFieldValidation, validate_path, hp]

/-! ## Claim theorems -/

/-- C1: loading `vast_api_client.vast_api_client` resolves every name it
imports from the models module; `ShareCreate` is among them but is not an
attribute of the models module, so the import raises a name-resolution
error and no `VASTClient` (hence no `add_view` call, for any `share_name`)
can ever send a request. -/
theorem C1_shareCreate_import_fails :
    clientModuleImportOk = false ∧
    "ShareCreate" ∈ clientImportsFromModels ∧
    "ShareCreate" ∉ modelsModuleNames := by
  refine ⟨rfl, ?_, ?_⟩ <;> decide

/-- C2: evaluating the dispatcher at the claim's failing input — a GET whose
first response is 403 (body "errBody") and whose renewal-triggered re-issued
GET succeeds with 200 (body "okBody") — one renewal and one re-issued GET
happen, but the returned value is the ORIGINAL 403 response's body, not the
retried response's: line 39 of `abstract_client.py` drops the recursive
call's result and the function falls through to `return r.json()`. -/
theorem C2_get_returns_original_403_body :
    sendGetRequest ⟨some "tok", some "ref"⟩
        [⟨403, JVal.str "errBody"⟩, ⟨200, JVal.str "okBody"⟩] 2 =
      { result := Except.ok (JVal.str "errBody"),
        renewals := 1, requestsSent := 2 } ∧
    JVal.str "errBody" ≠ JVal.str "okBody" := by
  refine ⟨rfl, ?_⟩
  intro h
  injection h with h1
  exact absurd h1 (by decide)

/-- C3 counterexample: with a refresh token present, `retries=2`, and every
response 403, the run performs two renewals and three GETs — not the
claimed exactly one renewal and one re-issued GET. -/
theorem C3_counterexample :
    (sendGetRequest ⟨some "tok", some "ref"⟩
        [⟨403, JVal.null⟩, ⟨403, JVal.null⟩, ⟨403, JVal.null⟩] 2).renewals = 2 ∧
    (sendGetRequest ⟨some "tok", some "ref"⟩
        [⟨403, JVal.null⟩, ⟨403, JVal.null⟩, ⟨403, JVal.null⟩] 2).requestsSent = 3 ∧
    (2 : Nat) ≠ 1 :=
  ⟨rfl, rfl, by decide⟩

/-- C3 (amended): for every GET dispatch with a refresh token present and
`retries=2` whose responses are all 403, exactly two renewals and two
re-issued GETs occur (three GETs in total) and the call raises the HTTP 403
error after the third 403 response. -/
theorem C3_two_renewals_two_retries (tok ref : String) (b1 b2 b3 : JVal) :
    sendGetRequest ⟨some tok, some ref⟩ [⟨403, b1⟩, ⟨403, b2⟩, ⟨403, b3⟩] 2 =
      { result := Except.error (DispatchError.http 403),
        renewals := 2, requestsSent := 3 } :=
  rfl

/-- C4 counterexample: `add_quota("team", "/data/team", hard_limit=1000)`
issues no GET at all — its entire request trace is the single POST — so the
claimed `GET quotas/?path=/data/team` pre-check (and with it the
`ResourceExistsError` branch) does not happen. -/
theorem C4_counterexample :
    add_quota "team" "/data/team" 1000 none false =
      Except.ok [HttpReq.post "quotas/"
        [("name", JVal.str "team"), ("path", JVal.str "/data/team"),
         ("soft_limit", JVal.num 1000), ("hard_limit", JVal.num 1000),
         ("create_dir", JVal.bool false)]] ∧
    countGets [HttpReq.post "quotas/"
        [("name", JVal.str "team"), ("path", JVal.str "/data/team"),
         ("soft_limit", JVal.num 1000), ("hard_limit", JVal.num 1000),
         ("create_dir", JVal.bool false)]] = 0 :=
  ⟨rfl, rfl⟩

/-- C4 (amended): `add_quota("team", "/data/team", hard_limit=1000)` issues
exactly one request — `POST quotas/` with body `{name: "team",
path: "/data/team", soft_limit: 1000, hard_limit: 1000, create_dir: false}`
— with no preceding GET; `add_quota` performs no pre-existing-quota check
and never raises `ResourceExistsError` (that pattern lives in
`add_protected_path`). -/
theorem C4_add_quota_single_post :
    ∃ reqs, add_quota "team" "/data/team" 1000 none false = Except.ok reqs ∧
      reqs = [HttpReq.post "quotas/"
        [("name", JVal.str "team"), ("path", JVal.str "/data/team"),
         ("soft_limit", JVal.num 1000), ("hard_limit", JVal.num 1000),
         ("create_dir", JVal.bool false)]] ∧
      reqs.length = 1 ∧ countGets reqs = 0 :=
  ⟨_, rfl, rfl, rfl, rfl⟩

/-- C5 counterexample: the string `/a//b` does not match
`^/([A-Za-z0-9_-]+/)*[A-Za-z0-9_-]+$`, yet path validation accepts it —
pydantic's `Path` coercion collapses the double slash to `/a/b` before
`validate_path` checks the regex — refuting the claimed equivalence. -/
theorem C5_counterexample :
    pathAccepted "/a//b" = true ∧ matchesPathPattern "/a//b" = false := by
  exact ⟨by decide, by decide⟩

/-- C5 (amended): path validation accepts every string that matches
`^/([A-Za-z0-9_-]+/)*[A-Za-z0-9_-]+$` (pathlib normalization is the
identity on such strings), but acceptance is not equivalent to the regex:
the caller's string is first normalized by `pathlib.Path`, so `/a/b/c` and
`/x` are accepted, `a/b` and `/a/../b` are rejected, and `/a//b` — which
does not match the regex — is accepted because it normalizes to `/a/b`. -/
theorem C5_path_validation (s : String) (h : matchesPathPattern s = true) :
    pathAccepted s = true ∧
    pathAccepted "/a/b/c" = true ∧ pathAccepted "/x" = true ∧
    pathAccepted "a/b" = false ∧ pathAccepted "/a/../b" = false ∧
    pathAccepted "/a//b" = true := by
  refine ⟨?_, by decide, by decide, by decide, by decide, by decide⟩
  have hnorm := posixNormalize_eq_self_of_matches s h
  simp [pathAccepted, pathFieldValidation, validate_path, hnorm, h]

/-- Witness for C5: instantiated at the concrete matching string `/data/team`. -/
theorem C5_path_validation_witness :
    matchesPathPattern "/data/team" = true ∧
    (pathAccepted "/data/team" = true ∧
     pathAccepted "/a/b/c" = true ∧ pathAccepted "/x" = true ∧
     pathAccepted "a/b" = false ∧ pathAccepted "/a/../b" = false ∧
     pathAccepted "/a//b" = true) :=
  ⟨by decide, C5_path_validation "/data/team" (by decide)⟩

/-- C6: quota construction demands a positive `hard_limit`; a supplied
`soft_limit` must be positive and exceed-checked (`hard_limit < soft_limit`
is a validation error, e.g. hard 50 / soft 100); an omitted `soft_limit`
is normalized to `hard_limit` (e.g. hard 100 gives soft 100) — for
`QuotaCreate` and likewise `QuotaUpdate`. -/
theorem C6_quota_limits (name path : String) (hard s : Int)
    (hp : matchesPathPattern (posixNormalize path) = true) :
    (0 < hard →
      mkQuotaCreate name path none hard false =
        Except.ok { name := pyStrip name, path := posixNormalize path,
                    soft_limit := hard, hard_limit := hard,
                    create_dir := false }) ∧
    (hard ≤ 0 → ∃ e, mkQuotaCreate name path none hard false = Except.error e) ∧
    (s ≤ 0 → ∃ e, mkQuotaCreate name path (some s) hard false = Except.error e) ∧
    (0 < hard → 0 < s → hard < s →
      mkQuotaCreate name path (some s) hard false =
        Except.error "\x27soft_limit\x27 cannot be larger than \x27hard_limit\x27") ∧
    (0 < s → s ≤ hard →
      mkQuotaCreate name path (some s) hard false =
        Except.ok { name := pyStrip name, path := posixNormalize path,
                    soft_limit := s, hard_limit := hard,
                    create_dir := false }) ∧
    (0 < hard →
      mkQuotaUpdate none hard =
        Except.ok { soft_limit := hard, hard_limit := hard }) ∧
    (0 < hard → 0 < s → hard < s →
      mkQuotaUpdate (some s) hard =
        Except.error "\x27soft_limit\x27 cannot be larger than \x27hard_limit\x27") := by
  have hfv := pathFieldValidation_ok path hp
  refine ⟨?_, ?_, ?_, ?_, ?_, ?_, ?_⟩
  · intro h1
    simp [mkQuotaCreate, hfv, Bind.bind, Except.bind, Pure.pure, Except.pure,
      show ¬ hard ≤ 0 by omega, show ¬ hard < hard by omega]
  · intro h1
    refine ⟨"hard_limit must be a positive integer", ?_⟩
    simp [mkQuotaCreate, hfv, Bind.bind, Except.bind, Pure.pure, Except.pure, h1]
  · intro h1
    refine ⟨"soft_limit must be a positive integer", ?_⟩
    simp [mkQuotaCreate, hfv, Bind.bind, Except.bind, Pure.pure, Except.pure, h1]
  · intro h1 h2 h3
    simp [mkQuotaCreate, hfv, Bind.bind, Except.bind, Pure.pure, Except.pure,
      h3, show ¬ s ≤ 0 by omega, show ¬ hard ≤ 0 by omega]
  · intro h1 h2
    simp [mkQuotaCreate, hfv, Bind.bind, Except.bind, Pure.pure, Except.pure,
      show ¬ s ≤ 0 by omega, show ¬ hard ≤ 0 by omega, show ¬ hard < s by omega]
  · intro h1
    simp [mkQuotaUpdate, Bind.bind, Except.bind, Pure.pure, Except.pure,
      show ¬ hard ≤ 0 by omega, show ¬ hard < hard by omega]
  · intro h1 h2 h3
    simp [mkQuotaUpdate, Bind.bind, Except.bind, Pure.pure, Except.pure,
      h3, show ¬ s ≤ 0 by omega, show ¬ hard ≤ 0 by omega]

/-- Witness for C6: instantiated at name "team", path "/data/team",
hard 100, soft candidate 50. -/
theorem C6_quota_limits_witness :
    matchesPathPattern (posixNormalize "/data/team") = true ∧
    ((0 < (100 : Int) →
      mkQuotaCreate "team" "/data/team" none 100 false =
        Except.ok { name := pyStrip "team", path := posixNormalize "/data/team",
                    soft_limit := 100, hard_limit := 100,
                    create_dir := false }) ∧
    ((100 : Int) ≤ 0 →
      ∃ e, mkQuotaCreate "team" "/data/team" none 100 false = Except.error e) ∧
    ((50 : Int) ≤ 0 →
      ∃ e, mkQuotaCreate "team" "/data/team" (some 50) 100 false = Except.error e) ∧
    (0 < (100 : Int) → 0 < (50 : Int) → (100 : Int) < 50 →
      mkQuotaCreate "team" "/data/team" (some 50) 100 false =
        Except.error "\x27soft_limit\x27 cannot be larger than \x27hard_limit\x27") ∧
    (0 < (50 : Int) → (50 : Int) ≤ 100 →
      mkQuotaCreate "team" "/data/team" (some 50) 100 false =
        Except.ok { name := pyStrip "team", path := posixNormalize "/data/team",
                    soft_limit := 50, hard_limit := 100,
                    create_dir := false }) ∧
    (0 < (100 : Int) →
      mkQuotaUpdate none 100 =
        Except.ok { soft_limit := 100, hard_limit := 100 }) ∧
    (0 < (100 : Int) → 0 < (50 : Int) → (100 : Int) < 50 →
      mkQuotaUpdate (some 50) 100 =
        Except.error "\x27soft_limit\x27 cannot be larger than \x27hard_limit\x27")) :=
  ⟨by decide, C6_quota_limits "team" "/data/team" 100 50 (by decide)⟩

/-- C7: view construction with SMB among the protocols and no share raises
"SMB views require a share name"; a supplied share not ending in `$` (such
as "finance") raises "share_name must end with '$'"; with share "finance$"
construction succeeds and the serialized payload carries
`share: "finance$"`. -/
theorem C7_view_share_rules (path : String) (pid : PolicyEnum)
    (hp : matchesPathPattern (posixNormalize path) = true) :
    mkViewCreate none path (some pid) (some [ProtocolEnum.SMB]) true =
      Except.error "SMB views require a share name" ∧
    mkViewCreate (some "finance") path (some pid) (some [ProtocolEnum.SMB]) true =
      Except.error "share_name must end with \x27$\x27" ∧
    ∃ v, mkViewCreate (some "finance$") path (some pid)
          (some [ProtocolEnum.SMB]) true = Except.ok v ∧
      v.share = some "finance$" ∧
      ("share", JVal.str "finance$") ∈ v.model_dump := by
  have hfv := pathFieldValidation_ok path hp
  refine ⟨?_, rfl, ?_⟩
  · simp [mkViewCreate, hfv, Bind.bind, Except.bind, Pure.pure, Except.pure,
      pyStrip, endsWithChar]
    rfl
  · refine ⟨{ share := some "finance$", path := posixNormalize path,
              policy_id := some pid, protocols := [ProtocolEnum.SMB],
              create_dir := true }, ?_, rfl, ?_⟩
    · simp [mkViewCreate, hfv, Bind.bind, Except.bind, Pure.pure, Except.pure,
        pyStrip, endsWithChar, isPySpace]
    · simp [ViewCreate.model_dump]

/-- Witness for C7: instantiated at path "/finance/data" and policy
SMBDefault. -/
theorem C7_view_share_rules_witness :
    matchesPathPattern (posixNormalize "/finance/data") = true ∧
    (mkViewCreate none "/finance/data" (some PolicyEnum.SMBDefault)
        (some [ProtocolEnum.SMB]) true =
      Except.error "SMB views require a share name" ∧
    mkViewCreate (some "finance") "/finance/data" (some PolicyEnum.SMBDefault)
        (some [ProtocolEnum.SMB]) true =
      Except.error "share_name must end with \x27$\x27" ∧
    ∃ v, mkViewCreate (some "finance$") "/finance/data"
          (some PolicyEnum.SMBDefault) (some [ProtocolEnum.SMB]) true =
        Except.ok v ∧
      v.share = some "finance$" ∧
      ("share", JVal.str "finance$") ∈ v.model_dump) :=
  ⟨by decide, C7_view_share_rules "/finance/data" PolicyEnum.SMBDefault (by decide)⟩

/-- C8 counterexample: `PathBody` — the path-carrying request body — is
configured `extra='allow'`, so constructing it from input with the unknown
key `unexpected_field` raises no validation error, refuting the claim that
every model variant rejects unknown fields. -/
theorem C8_counterexample :
    extraFieldCheck ModelKind.PathBody ["path", "unexpected_field"] =
      Except.ok () ∧
    "unexpected_field" ∉ modelDeclaredFields ModelKind.PathBody ∧
    modelExtraForbid ModelKind.PathBody = false := by
  refine ⟨rfl, ?_, rfl⟩
  decide

/-- C8 (amended): every request model except `PathBody` (which is declared
`extra='allow'`) rejects construction from input containing a field name
outside its declared schema. -/
theorem C8_strict_schema (m : ModelKind) (keys : List String) (k : String)
    (hm : m ≠ ModelKind.PathBody) (hk : k ∈ keys)
    (hnot : k ∉ modelDeclaredFields m) :
    ∃ e, extraFieldCheck m keys = Except.error e := by
  have hforbid : modelExtraForbid m = true := by
    cases m <;> simp_all [modelExtraForbid]
  have hkf : k ∈ keys.filter (fun x => !(modelDeclaredFields m).contains x) := by
    apply List.mem_filter.mpr
    refine ⟨hk, ?_⟩
    simp [hnot]
  obtain ⟨k1, rest, hfl⟩ :
      ∃ k1 rest, keys.filter (fun x => !(modelDeclaredFields m).contains x)
        = k1 :: rest := by
    cases hf : keys.filter (fun x => !(modelDeclaredFields m).contains x) with
    | nil => rw [hf] at hkf; cases hkf
    | cons a b => exact ⟨a, b, rfl⟩
  refine ⟨"Extra inputs are not permitted: " ++ k1, ?_⟩
  simp only [extraFieldCheck, hforbid, if_true, hfl]

/-- Witness for C8: instantiated at `QuotaCreate` with input keys
`["name", "bogus"]` and the unknown key `"bogus"`. -/
theorem C8_strict_schema_witness :
    (ModelKind.QuotaCreate ≠ ModelKind.PathBody ∧
     "bogus" ∈ ["name", "bogus"] ∧
     "bogus" ∉ modelDeclaredFields ModelKind.QuotaCreate) ∧
    ∃ e, extraFieldCheck ModelKind.QuotaCreate ["name", "bogus"] =
      Except.error e :=
  ⟨⟨by decide, by decide, by decide⟩,
   C8_strict_schema ModelKind.QuotaCreate ["name", "bogus"] "bogus"
     (by decide) (by decide) (by decide)⟩

/-- C9: the code evaluated at the failing input `name="nightly"`,
`policy_id=None`: because the branch guard tests the builtin `id` (which is
never `None`) instead of the `policy_id` parameter, the call issues
`GET protectionpolicies/None/` rather than the claimed
`GET protectionpolicies/` with query parameter `name`. -/
theorem C9_policy_branch_ignores_policy_id :
    get_protection_policies (some "nightly") none none =
      HttpReq.get "protectionpolicies/None/" [] ∧
    get_protection_policies (some "nightly") none none ≠
      HttpReq.get "protectionpolicies/" [("name", "nightly")] := by
  refine ⟨rfl, ?_⟩
  intro h
  rw [show get_protection_policies (some "nightly") none none =
      HttpReq.get "protectionpolicies/None/" [] from rfl] at h
  injection h with h1 h2
  exact absurd h1 (by decide)

/-- C10 counterexample: a 304 response to a POST is not 2xx, yet it is not
surfaced as an HTTP error — `raise_for_status` raises only for statuses in
400–599, so the dispatcher returns the decoded body as a success. -/
theorem C10_counterexample :
    (sendBody ⟨some "tok", some "ref"⟩ "POST" false
        [⟨304, JVal.null⟩]).result = Except.ok JVal.null ∧
    ¬ (200 ≤ 304 ∧ 304 < 300) ∧
    isHttpErrorStatus 304 = false :=
  ⟨rfl, by decide, rfl⟩

/-- C10 (amended): for every non-GET dispatch (POST, PATCH, PUT, DELETE —
including the bodyless DELETE path) by a client holding an access token, a
4xx/5xx response — in particular a 403 — is surfaced immediately as an HTTP
error carrying that status: exactly one request is sent no matter what
further responses are scripted, with no token renewal and no automatic
re-issue.  (Statuses in 300–399 are not raised by `raise_for_status`; the
body is returned instead, see the counterexample.) -/
theorem C10_no_retry_on_mutating (m tok : String) (refresh : Option String)
    (status : Nat) (b : JVal) (rest : List HttpResponse)
    (hm : m = "POST" ∨ m = "PATCH" ∨ m = "PUT" ∨ m = "DELETE")
    (hs : 400 ≤ status) (hs2 : status < 600) :
    (sendBody ⟨some tok, refresh⟩ m false (⟨status, b⟩ :: rest)).result =
        Except.error (DispatchError.http status) ∧
    (sendBody ⟨some tok, refresh⟩ m false (⟨status, b⟩ :: rest)).renewals = 0 ∧
    (sendBody ⟨some tok, refresh⟩ m false (⟨status, b⟩ :: rest)).requestsSent = 1 ∧
    (sendDeleteNoBody ⟨some tok, refresh⟩ (⟨status, b⟩ :: rest)).result =
        Except.error (DispatchError.http status) ∧
    (sendDeleteNoBody ⟨some tok, refresh⟩ (⟨status, b⟩ :: rest)).renewals = 0 ∧
    (sendDeleteNoBody ⟨some tok, refresh⟩ (⟨status, b⟩ :: rest)).requestsSent = 1 := by
  have herr : isHttpErrorStatus status = true := by
    simp only [isHttpErrorStatus, Bool.and_eq_true, decide_eq_true_eq]
    omega
  rcases hm with rfl | rfl | rfl | rfl <;>
    exact ⟨by simp [sendBody, herr], by simp [sendBody, herr],
           by simp [sendBody, herr], by simp [sendDeleteNoBody, herr],
           by simp [sendDeleteNoBody, herr], by simp [sendDeleteNoBody, herr]⟩

/-- Witness for C10: instantiated at a POST receiving a single 403. -/
theorem C10_no_retry_on_mutating_witness :
    (("POST" = "POST" ∨ "POST" = "PATCH" ∨ "POST" = "PUT" ∨
      "POST" = "DELETE") ∧ 400 ≤ 403 ∧ 403 < 600) ∧
    ((sendBody ⟨some "tok", some "ref"⟩ "POST" false
        [⟨403, JVal.null⟩]).result = Except.error (DispatchError.http 403) ∧
     (sendBody ⟨some "tok", some "ref"⟩ "POST" false
        [⟨403, JVal.null⟩]).renewals = 0 ∧
     (sendBody ⟨some "tok", some "ref"⟩ "POST" false
        [⟨403, JVal.null⟩]).requestsSent = 1 ∧
     (sendDeleteNoBody ⟨some "tok", some "ref"⟩ [⟨403, JVal.null⟩]).result =
        Except.error (DispatchError.http 403) ∧
     (sendDeleteNoBody ⟨some "tok", some "ref"⟩ [⟨403, JVal.null⟩]).renewals = 0 ∧
     (sendDeleteNoBody ⟨some "tok", some "ref"⟩ [⟨403, JVal.null⟩]).requestsSent = 1) :=
  ⟨⟨Or.inl rfl, by decide, by decide⟩,
   C10_no_retry_on_mutating "POST" "tok" (some "ref") 403 JVal.null []
     (Or.inl rfl) (by decide) (by decide)⟩

end VastApiClient
